import Mathlib

/-!
Verification development for the print-layout editor
(`src/components/PrintLayoutEditor.tsx` and the near-duplicate demo
implementation in the second source file).

Shallow embedding conventions:
* JavaScript numbers that hold pixel coordinates and dimensions are
  modelled as rationals (all arithmetic performed on them in the relevant
  code paths is exact: additions, subtractions, halving, min/max).
* The rotation angle is an integer; the JavaScript remainder operator
  `%` (sign of the dividend) is `Int.tmod`.
* A `Set<string>` of selected ids is a `Finset String`; the photo list is
  a `List PhotoOnPage` in insertion order.
* React state updates (`setPhotos`, ...) become pure functions from the
  previous state to the next state.
* The nondeterministic id generator (timestamp + random + index) is
  modelled by an explicit `mkId : Nat → String` parameter.
-/

/-- The `PhotoOnPage` record type, identical in both source files. -/
structure PhotoOnPage where
  id : String
  dataUrl : String
  x : ℚ
  y : ℚ
  width : ℚ
  height : ℚ
  originalWidth : ℚ
  originalHeight : ℚ
  hasBorder : Bool
  rotation : ℤ
deriving DecidableEq

attribute [ext] PhotoOnPage

instance : Inhabited PhotoOnPage :=
  ⟨⟨"", "", 0, 0, 0, 0, 0, 0, false, 0⟩⟩

/-- The `PageSize` record type (name, physical width/height in inches). -/
structure PageSize where
  name : String
  widthIn : ℚ
  heightIn : ℚ
deriving DecidableEq

/-- Entry `"4x6"` of `PAGE_SIZES`. -/
def PAGE_SIZES_4x6 : PageSize := ⟨"4×6 inches", 4, 6⟩

/-- Entry `"a4"` of `PAGE_SIZES`. -/
def PAGE_SIZES_a4 : PageSize := ⟨"A4 (8.27×11.69 in)", 827 / 100, 1169 / 100⟩

/-- Element of a saved-crop record (`savedCrops` prop) that the add
handlers read: id, data url and pixel dimensions. -/
structure Crop where
  id : String
  dataUrl : String
  width : ℚ
  height : ℚ
deriving DecidableEq

/-- Result type of `getBoundingBox`. -/
structure BoundingBox where
  width : ℚ
  height : ℚ
deriving DecidableEq

/-- `getBoundingBox` (identical in both files): when rotate-in-place is
active and the rotation is not a multiple of 180, the bounding box is the
square on the larger dimension; otherwise it is the stored size. -/
def getBoundingBox (rotateInPlace : Bool) (photo : PhotoOnPage) : BoundingBox :=
  if rotateInPlace ∧ photo.rotation.tmod 180 ≠ 0 then
    { width := max photo.width photo.height, height := max photo.width photo.height }
  else
    { width := photo.width, height := photo.height }

/-- Per-photo body of the `setPhotos` map inside `handleMouseMove`: add
the group delta and clamp each coordinate against the photo's own
bounding box. -/
def dragPhotoClamp (rotateInPlace : Bool) (pageWidthPx pageHeightPx deltaX deltaY : ℚ)
    (p : PhotoOnPage) : PhotoOnPage :=
  let bbox := getBoundingBox rotateInPlace p
  { p with
    x := max 0 (min (p.x + deltaX) (pageWidthPx - bbox.width)),
    y := max 0 (min (p.y + deltaY) (pageHeightPx - bbox.height)) }

/-- One `mousemove` step of a drag (identical logic in both files; the
demo file divides client coordinates by the zoom factor before this
point, so `newX`/`newY` here are already page-space coordinates).
The primary photo is the first photo in list order whose id is selected;
the same delta, measured from the primary photo, is applied to every
selected photo. -/
def handleMouseMove (rotateInPlace : Bool) (pageWidthPx pageHeightPx : ℚ)
    (selectedPhotoIds : Finset String) (newX newY : ℚ)
    (photos : List PhotoOnPage) : List PhotoOnPage :=
  if selectedPhotoIds.card = 0 then photos
  else
    match photos.find? (fun p => decide (p.id ∈ selectedPhotoIds)) with
    | none => photos
    | some primaryPhoto =>
      let deltaX := newX - primaryPhoto.x
      let deltaY := newY - primaryPhoto.y
      photos.map (fun p =>
        if p.id ∈ selectedPhotoIds then
          dragPhotoClamp rotateInPlace pageWidthPx pageHeightPx deltaX deltaY p
        else p)

/-- Keys distinguished by `handleKeyDown`. -/
inductive Key where
  | arrowLeft
  | arrowRight
  | arrowUp
  | arrowDown
  | delete
  | backspace
  | other
deriving DecidableEq

/-- Per-photo body of the `setPhotos` map inside `handleKeyDown`: move by
`step` along the axis of the arrow key, clamped at 0 on the low side and
at page size minus the photo's own bounding box on the high side.
`Delete`/`Backspace` leave the photo unchanged here (the deferred
`handleDeleteSelected` is a separate state update). -/
def nudgePhoto (rotateInPlace : Bool) (pageWidthPx pageHeightPx : ℚ) (key : Key)
    (step : ℚ) (p : PhotoOnPage) : PhotoOnPage :=
  let bbox := getBoundingBox rotateInPlace p
  match key with
  | .arrowLeft => { p with x := max 0 (p.x - step) }
  | .arrowRight => { p with x := min (pageWidthPx - bbox.width) (p.x + step) }
  | .arrowUp => { p with y := max 0 (p.y - step) }
  | .arrowDown => { p with y := min (pageHeightPx - bbox.height) (p.y + step) }
  | _ => p

/-- The `setPhotos` update performed by `handleKeyDown` (identical in
both files): nothing happens with an empty selection; otherwise every
selected photo is nudged with step 10 when shift is held, else 1. -/
def handleKeyDown (rotateInPlace : Bool) (pageWidthPx pageHeightPx : ℚ)
    (selectedPhotoIds : Finset String) (shiftKey : Bool) (key : Key)
    (photos : List PhotoOnPage) : List PhotoOnPage :=
  if selectedPhotoIds.card = 0 then photos
  else
    let step : ℚ := if shiftKey then 10 else 1
    photos.map (fun p =>
      if p.id ∈ selectedPhotoIds then
        nudgePhoto rotateInPlace pageWidthPx pageHeightPx key step p
      else p)

/-- Per-photo body of `rotatePhoto` (identical in both files): rotation
advances by `(rotation + 90) % 360`; with rotate-in-place on, no other
field changes; with it off, width/height are swapped and the position is
recentered on the previous center, then clamped to the page. -/
def rotatePhotoStep (rotateInPlace : Bool) (pageWidthPx pageHeightPx : ℚ)
    (p : PhotoOnPage) : PhotoOnPage :=
  let newRotation := (p.rotation + 90).tmod 360
  if rotateInPlace then
    { p with rotation := newRotation }
  else
    let centerX := p.x + p.width / 2
    let centerY := p.y + p.height / 2
    let newWidth := p.height
    let newHeight := p.width
    let newX := max 0 (min (centerX - newWidth / 2) (pageWidthPx - newWidth))
    let newY := max 0 (min (centerY - newHeight / 2) (pageHeightPx - newHeight))
    { p with rotation := newRotation, width := newWidth, height := newHeight, x := newX, y := newY }

/-- The `setPhotos` update performed by `rotatePhoto photoId`. -/
def rotatePhoto (rotateInPlace : Bool) (pageWidthPx pageHeightPx : ℚ) (photoId : String)
    (photos : List PhotoOnPage) : List PhotoOnPage :=
  photos.map (fun p =>
    if p.id = photoId then rotatePhotoStep rotateInPlace pageWidthPx pageHeightPx p else p)

/-- The component state touched by the delete / clear-all / print
handlers. -/
structure EditorState where
  pageSize : String
  photos : List PhotoOnPage
  selectedPhotoIds : Finset String
  showBorderByDefault : Bool
  rotateInPlace : Bool
deriving DecidableEq

/-- `handleDeletePhoto photoId`: drop the photo from the list and its id
from the selection set. -/
def handleDeletePhoto (photoId : String) (s : EditorState) : EditorState :=
  { s with
    photos := s.photos.filter (fun p => decide (p.id ≠ photoId)),
    selectedPhotoIds := s.selectedPhotoIds.erase photoId }

/-- `handleDeleteSelected`: no-op on an empty selection; otherwise keep
exactly the photos whose ids are not selected and empty the selection. -/
def handleDeleteSelected (s : EditorState) : EditorState :=
  if s.selectedPhotoIds.card = 0 then s
  else
    { s with
      photos := s.photos.filter (fun p => decide (p.id ∉ s.selectedPhotoIds)),
      selectedPhotoIds := ∅ }

/-- The "Clear All Photos" button: `setPhotos([])` and nothing else. -/
def clearAllPhotos (s : EditorState) : EditorState :=
  { s with photos := [] }

/-- Observable outcome of `handlePrint`: either an aborting user-visible
error message, or proceeding to open the print surface. -/
inductive PrintOutcome where
  | aborted (message : String)
  | opened
deriving DecidableEq

/-- `handlePrint`: with an empty photo list, emit the error toast/alert
and return before opening the print window; otherwise proceed. The
handler performs no state update, so the state is passed through
unchanged. -/
def handlePrint (s : EditorState) : EditorState × PrintOutcome :=
  if s.photos.length = 0 then (s, .aborted "Add at least one photo to print")
  else (s, .opened)

/-- Packing loop of the demo file's bulk add handlers
(`handleAddEightPhotos` lines 116-136 and `handleAddMultiplePhotos`
lines 156-176): left-to-right, top-to-bottom; before emitting item `i`,
wrap to a new row when `x + itemWidth + marginRight > pageWidth`. -/
def packAux (dataUrl : String) (origW origH : ℚ) (hasB : Bool) (rot : ℤ)
    (mkId : ℕ → String) (pageWidthPx bW bH marginLeft marginRight gapX gapY : ℚ) :
    ℕ → ℕ → ℚ → ℚ → List PhotoOnPage
  | 0, _, _, _ => []
  | n + 1, i, x, y =>
    let xy := if x + bW + marginRight > pageWidthPx then (marginLeft, y + bH + gapY) else (x, y)
    { id := mkId i, dataUrl := dataUrl, x := xy.1, y := xy.2, width := bW, height := bH,
      originalWidth := origW, originalHeight := origH, hasBorder := hasB, rotation := rot } ::
      packAux dataUrl origW origH hasB rot mkId pageWidthPx bW bH marginLeft marginRight
        gapX gapY n (i + 1) (xy.1 + bW + gapX) xy.2

/-- Packing loop of the tsx file's bulk add handlers, which additionally
carries the `rowHeight` variable (reset to the item height on wrap). -/
def editorPackAux (dataUrl : String) (origW origH : ℚ) (hasB : Bool) (rot : ℤ)
    (mkId : ℕ → String) (pageWidthPx bW bH marginLeft marginRight gapX gapY : ℚ) :
    ℕ → ℕ → ℚ → ℚ → ℚ → List PhotoOnPage
  | 0, _, _, _, _ => []
  | n + 1, i, x, y, rowHeight =>
    let s := if x + bW + marginRight > pageWidthPx
      then (marginLeft, y + rowHeight + gapY, bH)
      else (x, y, rowHeight)
    { id := mkId i, dataUrl := dataUrl, x := s.1, y := s.2.1, width := bW, height := bH,
      originalWidth := origW, originalHeight := origH, hasBorder := hasB, rotation := rot } ::
      editorPackAux dataUrl origW origH hasB rot mkId pageWidthPx bW bH marginLeft marginRight
        gapX gapY n (i + 1) (s.1 + bW + gapX) s.2.1 s.2.2

namespace Demo

/-- The demo file's resolution constant (`DPI = 300`). -/
def DPI : ℚ := 300

/-- `pageWidthPx = currentPageSize.widthIn * DPI` in the demo file. -/
def pageWidthPx (ps : PageSize) : ℚ := ps.widthIn * DPI

/-- `pageHeightPx = currentPageSize.heightIn * DPI` in the demo file. -/
def pageHeightPx (ps : PageSize) : ℚ := ps.heightIn * DPI

/-- The demo file's `handleAddEightPhotos` (rotated tiling): item size is
the crop size with width/height swapped (fixed 90 degree rotation),
margins 49 top / 55 left / 55 right, gaps 9, appended to the previous
photo list. -/
def handleAddEightPhotos (crop : Crop) (count : ℕ) (pageW : ℚ)
    (showBorderByDefault : Bool) (mkId : ℕ → String)
    (prev : List PhotoOnPage) : List PhotoOnPage :=
  let photoWidth := crop.width
  let photoHeight := crop.height
  let imageRotation : ℤ := 90
  let boundingWidth := if imageRotation.tmod 180 ≠ 0 then photoHeight else photoWidth
  let boundingHeight := if imageRotation.tmod 180 ≠ 0 then photoWidth else photoHeight
  prev ++ packAux crop.dataUrl crop.width crop.height showBorderByDefault imageRotation mkId
    pageW boundingWidth boundingHeight 55 55 9 9 count 0 55 49

/-- The demo file's `handleAddMultiplePhotos` (plain tiling): item size
is the crop size, rotation 0, margins 49 top / 55 left / 55 right,
gapX 29, gapY 22. -/
def handleAddMultiplePhotos (crop : Crop) (count : ℕ) (pageW : ℚ)
    (showBorderByDefault : Bool) (mkId : ℕ → String)
    (prev : List PhotoOnPage) : List PhotoOnPage :=
  prev ++ packAux crop.dataUrl crop.width crop.height showBorderByDefault 0 mkId
    pageW crop.width crop.height 55 55 29 22 count 0 55 49

end Demo

namespace Editor

/-- The tsx file's resolution constant (`DPI = 96`). -/
def DPI : ℚ := 96

/-- `pageWidthPx` in the tsx file. -/
def pageWidthPx (ps : PageSize) : ℚ := ps.widthIn * DPI

/-- `pageHeightPx` in the tsx file. -/
def pageHeightPx (ps : PageSize) : ℚ := ps.heightIn * DPI

/-- The tsx file's `handleAddEightPhotos` (rotated tiling): crop size is
converted through inches at `defaultDPI = 96` back to `DPI = 96` pixels,
width/height swapped because of the fixed 90 degree rotation, margins
20, gaps 3. -/
def handleAddEightPhotos (crop : Crop) (count : ℕ) (pageW : ℚ)
    (showBorderByDefault : Bool) (mkId : ℕ → String)
    (prev : List PhotoOnPage) : List PhotoOnPage :=
  let inchesW := crop.width / 96
  let inchesH := crop.height / 96
  let photoWidth := inchesW * DPI
  let photoHeight := inchesH * DPI
  let imageRotation : ℤ := 90
  let boundingWidth := if imageRotation.tmod 180 ≠ 0 then photoHeight else photoWidth
  let boundingHeight := if imageRotation.tmod 180 ≠ 0 then photoWidth else photoHeight
  prev ++ editorPackAux crop.dataUrl crop.width crop.height showBorderByDefault imageRotation
    mkId pageW boundingWidth boundingHeight 20 20 3 3 count 0 20 20 boundingHeight

/-- The tsx file's `handleAddMultiplePhotos` (plain tiling): margins 15
top / 20 left / 20 right, gaps 6, rotation 0. -/
def handleAddMultiplePhotos (crop : Crop) (count : ℕ) (pageW : ℚ)
    (showBorderByDefault : Bool) (mkId : ℕ → String)
    (prev : List PhotoOnPage) : List PhotoOnPage :=
  let inchesW := crop.width / 96
  let inchesH := crop.height / 96
  let photoWidth := inchesW * DPI
  let photoHeight := inchesH * DPI
  prev ++ editorPackAux crop.dataUrl crop.width crop.height showBorderByDefault 0
    mkId pageW photoWidth photoHeight 20 20 6 6 count 0 20 15 photoHeight

end Editor

/-- The page-bounds invariant from the specification: the photo's
position is nonnegative and its rotation-aware bounding box stays inside
the page. -/
def inBounds (rotateInPlace : Bool) (pageWidthPx pageHeightPx : ℚ) (p : PhotoOnPage) : Prop :=
  0 ≤ p.x ∧ 0 ≤ p.y ∧
    p.x + (getBoundingBox rotateInPlace p).width ≤ pageWidthPx ∧
    p.y + (getBoundingBox rotateInPlace p).height ≤ pageHeightPx

instance (rip : Bool) (pW pH : ℚ) (p : PhotoOnPage) : Decidable (inBounds rip pW pH p) := by
  unfold inBounds; infer_instance

/-- The photo's bounding box fits on the page at all. -/
def bboxFits (rotateInPlace : Bool) (pageWidthPx pageHeightPx : ℚ) (p : PhotoOnPage) : Prop :=
  (getBoundingBox rotateInPlace p).width ≤ pageWidthPx ∧
    (getBoundingBox rotateInPlace p).height ≤ pageHeightPx

instance (rip : Bool) (pW pH : ℚ) (p : PhotoOnPage) : Decidable (bboxFits rip pW pH p) := by
  unfold bboxFits; infer_instance

/-- Number of produced records sitting at a given y coordinate (used to
count the photos of one packed row). -/
def rowCount (photos : List PhotoOnPage) (rowY : ℚ) : ℕ :=
  (photos.filter (fun p => decide (p.y = rowY))).length

/-! Helper lemmas. -/

/-- Four +90 steps of the JavaScript remainder chain return any rotation
in [0, 360) to itself. -/
lemma rotation_four_steps (r : ℤ) (h0 : 0 ≤ r) (h1 : r < 360) :
    ((((r + 90).tmod 360 + 90).tmod 360 + 90).tmod 360 + 90).tmod 360 = r := by
  have e1 : (r + 90).tmod 360 = (r + 90) % 360 := Int.tmod_eq_emod (by omega) (by norm_num)
  rw [e1]
  have n1 : 0 ≤ (r + 90) % 360 := Int.emod_nonneg _ (by norm_num)
  rw [Int.tmod_eq_emod (a := (r + 90) % 360 + 90) (by omega) (by norm_num)]
  have n2 : 0 ≤ ((r + 90) % 360 + 90) % 360 := Int.emod_nonneg _ (by norm_num)
  rw [Int.tmod_eq_emod (a := ((r + 90) % 360 + 90) % 360 + 90) (by omega) (by norm_num)]
  have n3 : 0 ≤ (((r + 90) % 360 + 90) % 360 + 90) % 360 := Int.emod_nonneg _ (by norm_num)
  rw [Int.tmod_eq_emod (a := (((r + 90) % 360 + 90) % 360 + 90) % 360 + 90) (by omega)
    (by norm_num)]
  omega

/-- A clamp whose argument is already in range is the identity. -/
lemma clamp_eq_self (v hi : ℚ) (h0 : 0 ≤ v) (h1 : v ≤ hi) : max 0 (min v hi) = v := by
  rw [min_eq_left h1, max_eq_right h0]

/-- The clamped value lands in the range when the range is nonempty. -/
lemma clamp_mem (v hi : ℚ) (hhi : 0 ≤ hi) :
    0 ≤ max 0 (min v hi) ∧ max 0 (min v hi) ≤ hi :=
  ⟨le_max_left _ _, max_le hhi (min_le_right _ _)⟩

/-- Moving a photo does not change its bounding box. -/
lemma getBoundingBox_move (rip : Bool) (p : PhotoOnPage) (a b : ℚ) :
    getBoundingBox rip { p with x := a, y := b } = getBoundingBox rip p := rfl

/-- With rotate-in-place off the bounding box is the stored size. -/
lemma getBoundingBox_false (p : PhotoOnPage) :
    getBoundingBox false p = ⟨p.width, p.height⟩ := by
  simp [getBoundingBox]

/-- Page-bounds facts for a photo whose position alone was updated. -/
lemma inBounds_mk (rip : Bool) (pW pH : ℚ) (p : PhotoOnPage) (a b : ℚ)
    (h1 : 0 ≤ a) (h2 : 0 ≤ b)
    (h3 : a + (getBoundingBox rip p).width ≤ pW)
    (h4 : b + (getBoundingBox rip p).height ≤ pH) :
    inBounds rip pW pH { p with x := a, y := b } :=
  ⟨h1, h2, h3, h4⟩

/-- After a drag clamp the photo is inside the page, provided its
bounding box fits on the page at all. -/
lemma dragPhotoClamp_inBounds (rip : Bool) (pW pH dX dY : ℚ) (p : PhotoOnPage)
    (hfit : bboxFits rip pW pH p) :
    inBounds rip pW pH (dragPhotoClamp rip pW pH dX dY p) := by
  obtain ⟨h1, h2⟩ := hfit
  have cx := clamp_mem (p.x + dX) (pW - (getBoundingBox rip p).width) (by linarith)
  have cy := clamp_mem (p.y + dY) (pH - (getBoundingBox rip p).height) (by linarith)
  exact inBounds_mk rip pW pH p _ _ cx.1 cy.1 (by linarith [cx.2]) (by linarith [cy.2])

/-- A keyboard nudge with a nonnegative step keeps an in-bounds photo in
bounds, provided its bounding box fits on the page. -/
lemma nudgePhoto_inBounds (rip : Bool) (pW pH : ℚ) (key : Key) (step : ℚ) (p : PhotoOnPage)
    (hstep : 0 ≤ step) (hfit : bboxFits rip pW pH p) (hin : inBounds rip pW pH p) :
    inBounds rip pW pH (nudgePhoto rip pW pH key step p) := by
  obtain ⟨f1, f2⟩ := hfit
  obtain ⟨i1, i2, i3, i4⟩ := hin
  cases key with
  | arrowLeft =>
    have hle : max 0 (p.x - step) ≤ p.x := max_le i1 (by linarith)
    exact inBounds_mk rip pW pH p _ p.y (le_max_left _ _) i2 (by linarith) i4
  | arrowRight =>
    have hge : 0 ≤ min (pW - (getBoundingBox rip p).width) (p.x + step) :=
      le_min (by linarith) (by linarith)
    have hle := min_le_left (pW - (getBoundingBox rip p).width) (p.x + step)
    exact inBounds_mk rip pW pH p _ p.y hge i2 (by linarith) i4
  | arrowUp =>
    have hle : max 0 (p.y - step) ≤ p.y := max_le i2 (by linarith)
    exact inBounds_mk rip pW pH p p.x _ i1 (le_max_left _ _) i3 (by linarith)
  | arrowDown =>
    have hge : 0 ≤ min (pH - (getBoundingBox rip p).height) (p.y + step) :=
      le_min (by linarith) (by linarith)
    have hle := min_le_left (pH - (getBoundingBox rip p).height) (p.y + step)
    exact inBounds_mk rip pW pH p p.x _ i1 hge i3 (by linarith)
  | delete => exact ⟨i1, i2, i3, i4⟩
  | backspace => exact ⟨i1, i2, i3, i4⟩
  | other => exact ⟨i1, i2, i3, i4⟩

/-- A swap-dimensions rotation always leaves the photo inside the page,
provided both the swapped width and the swapped height fit. -/
lemma rotatePhotoStep_swap_inBounds (pW pH : ℚ) (p : PhotoOnPage)
    (hw : p.height ≤ pW) (hh : p.width ≤ pH) :
    inBounds false pW pH (rotatePhotoStep false pW pH p) := by
  have cx := clamp_mem (p.x + p.width / 2 - p.height / 2) (pW - p.height) (by linarith)
  have cy := clamp_mem (p.y + p.height / 2 - p.width / 2) (pH - p.width) (by linarith)
  refine ⟨cx.1, cy.1, ?_, ?_⟩
  · show max 0 (min (p.x + p.width / 2 - p.height / 2) (pW - p.height)) + p.height ≤ pW
    linarith [cx.2]
  · show max 0 (min (p.y + p.height / 2 - p.width / 2) (pH - p.width)) + p.width ≤ pH
    linarith [cy.2]

/-- A swap-dimensions rotation whose recentered position is not moved by
the clamp: explicit description of the result. -/
lemma rotatePhotoStep_swap_eq (pW pH : ℚ) (p : PhotoOnPage)
    (hx1 : 0 ≤ p.x + (p.width - p.height) / 2)
    (hx1' : p.x + (p.width - p.height) / 2 ≤ pW - p.height)
    (hy1 : 0 ≤ p.y + (p.height - p.width) / 2)
    (hy1' : p.y + (p.height - p.width) / 2 ≤ pH - p.width) :
    rotatePhotoStep false pW pH p =
      { p with
          rotation := (p.rotation + 90).tmod 360
          width := p.height
          height := p.width
          x := p.x + (p.width - p.height) / 2
          y := p.y + (p.height - p.width) / 2 } := by
  have hx := clamp_eq_self (p.x + (p.width - p.height) / 2) (pW - p.height) hx1 hx1'
  have hy := clamp_eq_self (p.y + (p.height - p.width) / 2) (pH - p.width) hy1 hy1'
  refine PhotoOnPage.ext rfl rfl ?_ ?_ rfl rfl rfl rfl rfl rfl
  · show max 0 (min (p.x + p.width / 2 - p.height / 2) (pW - p.height)) =
      p.x + (p.width - p.height) / 2
    rw [show p.x + p.width / 2 - p.height / 2 = p.x + (p.width - p.height) / 2 from by ring]
    exact hx
  · show max 0 (min (p.y + p.height / 2 - p.width / 2) (pH - p.width)) =
      p.y + (p.height - p.width) / 2
    rw [show p.y + p.height / 2 - p.width / 2 = p.y + (p.height - p.width) / 2 from by ring]
    exact hy

/-- Two swap-dimensions rotations with inactive clamps restore size and
position and advance the rotation twice. -/
lemma rotate_swap_twice (pW pH : ℚ) (p : PhotoOnPage)
    (hx : 0 ≤ p.x) (hxw : p.x ≤ pW - p.width)
    (hy : 0 ≤ p.y) (hyh : p.y ≤ pH - p.height)
    (hx1 : 0 ≤ p.x + (p.width - p.height) / 2)
    (hx1' : p.x + (p.width - p.height) / 2 ≤ pW - p.height)
    (hy1 : 0 ≤ p.y + (p.height - p.width) / 2)
    (hy1' : p.y + (p.height - p.width) / 2 ≤ pH - p.width) :
    rotatePhotoStep false pW pH (rotatePhotoStep false pW pH p) =
      { p with rotation := ((p.rotation + 90).tmod 360 + 90).tmod 360 } := by
  rw [rotatePhotoStep_swap_eq pW pH p hx1 hx1' hy1 hy1']
  rw [rotatePhotoStep_swap_eq pW pH _
    (by show (0 : ℚ) ≤ p.x + (p.width - p.height) / 2 + (p.height - p.width) / 2; linarith)
    (by show p.x + (p.width - p.height) / 2 + (p.height - p.width) / 2 ≤ pW - p.width; linarith)
    (by show (0 : ℚ) ≤ p.y + (p.height - p.width) / 2 + (p.width - p.height) / 2; linarith)
    (by show p.y + (p.height - p.width) / 2 + (p.width - p.height) / 2 ≤ pH - p.height; linarith)]
  refine PhotoOnPage.ext rfl rfl ?_ ?_ rfl rfl rfl rfl rfl rfl
  · show p.x + (p.width - p.height) / 2 + (p.height - p.width) / 2 = p.x
    ring
  · show p.y + (p.height - p.width) / 2 + (p.width - p.height) / 2 = p.y
    ring

/-! Claim theorems. -/

/-- C5: in rotate-in-place mode every `rotatePhoto` call advances the
rotation by exactly +90 modulo 360 (JavaScript remainder) and changes no
other field; hence four applications return the rotation of any photo
whose angle lies in [0, 360) to its original value and leave width,
height and position unchanged. -/
theorem C5_rotate_in_place (pW pH : ℚ) (p : PhotoOnPage) :
    rotatePhotoStep true pW pH p = { p with rotation := (p.rotation + 90).tmod 360 }
    ∧ (0 ≤ p.rotation → p.rotation < 360 →
        rotatePhotoStep true pW pH (rotatePhotoStep true pW pH
          (rotatePhotoStep true pW pH (rotatePhotoStep true pW pH p))) = p) := by
  have step : ∀ q : PhotoOnPage,
      rotatePhotoStep true pW pH q = { q with rotation := (q.rotation + 90).tmod 360 } :=
    fun q => rfl
  refine ⟨step p, fun h0 h1 => ?_⟩
  rw [step, step, step, step]
  refine PhotoOnPage.ext rfl rfl rfl rfl rfl rfl rfl rfl rfl ?_
  show ((((p.rotation + 90).tmod 360 + 90).tmod 360 + 90).tmod 360 + 90).tmod 360 = p.rotation
  exact rotation_four_steps p.rotation h0 h1

/-- C5 witness: a concrete photo at rotation 270 on the 4x6 page returns
to itself after four rotate-in-place calls. -/
theorem C5_rotate_in_place_witness :
    rotatePhotoStep true 384 576 (rotatePhotoStep true 384 576 (rotatePhotoStep true 384 576
        (rotatePhotoStep true 384 576 ⟨"p", "", 10, 20, 100, 50, 100, 50, true, 270⟩))) =
      ⟨"p", "", 10, 20, 100, 50, 100, 50, true, 270⟩ :=
  (C5_rotate_in_place 384 576 ⟨"p", "", 10, 20, 100, 50, 100, 50, true, 270⟩).2
    (by decide) (by decide)

/-- C6: the bulk-add packing loops place items with no check against the
page bottom: concrete runs of both the demo file's plain tiling (page
1200x1800 at 300 DPI) and the tsx file's rotated tiling (page 384x576 at
96 DPI) produce a record with `y + height > pageHeightPx`. -/
theorem C6_bulk_add_bottom_overflow :
    ((Demo.handleAddMultiplePhotos ⟨"1", "", 1000, 1000⟩ 2
        (Demo.pageWidthPx PAGE_SIZES_4x6) true (fun _ => "") []).any
      (fun p => decide (Demo.pageHeightPx PAGE_SIZES_4x6 < p.y + p.height)) = true)
    ∧ ((Editor.handleAddEightPhotos ⟨"1", "", 300, 300⟩ 2
        (Editor.pageWidthPx PAGE_SIZES_4x6) true (fun _ => "") []).any
      (fun p => decide (Editor.pageHeightPx PAGE_SIZES_4x6 < p.y + p.height)) = true) := by
  constructor <;>
    · simp only [Demo.handleAddMultiplePhotos, Editor.handleAddEightPhotos,
        Demo.pageWidthPx, Demo.pageHeightPx, Editor.pageWidthPx, Editor.pageHeightPx,
        Demo.DPI, Editor.DPI, PAGE_SIZES_4x6, packAux, editorPackAux, List.nil_append,
        List.any_cons, List.any_nil]
      norm_num

/-- C7: deleting a single photo removes its record from the list and its
id from the selection set; deleting the selection keeps exactly the
non-selected records unchanged and empties the selection set. -/
theorem C7_delete_semantics (s : EditorState) (photoId : String) (p : PhotoOnPage) :
    (p ∈ (handleDeletePhoto photoId s).photos ↔ p ∈ s.photos ∧ p.id ≠ photoId)
    ∧ (handleDeletePhoto photoId s).selectedPhotoIds = s.selectedPhotoIds.erase photoId
    ∧ (p ∈ (handleDeleteSelected s).photos ↔ p ∈ s.photos ∧ p.id ∉ s.selectedPhotoIds)
    ∧ (handleDeleteSelected s).selectedPhotoIds = ∅ := by
  refine ⟨?_, rfl, ?_, ?_⟩
  · simp [handleDeletePhoto, List.mem_filter]
  · unfold handleDeleteSelected
    split
    · rename_i h
      rw [Finset.card_eq_zero] at h
      simp [h]
    · simp [List.mem_filter]
  · unfold handleDeleteSelected
    split
    · rename_i h
      exact Finset.card_eq_zero.mp h
    · rfl

/-- C7 witness: single delete at a concrete state removes the id from a
two-element selection set. -/
theorem C7_delete_semantics_witness :
    (handleDeletePhoto "a" ⟨"4x6", [], {"a", "b"}, true, true⟩).selectedPhotoIds =
      ({"a", "b"} : Finset String).erase "a" :=
  (C7_delete_semantics ⟨"4x6", [], {"a", "b"}, true, true⟩ "a" default).2.1

/-- C8: printing with an empty photo list aborts with the user-visible
message before opening the print surface and leaves the state unchanged;
with a non-empty list no such message is emitted. -/
theorem C8_print_empty_guard (s : EditorState) :
    (s.photos = [] → handlePrint s = (s, .aborted "Add at least one photo to print"))
    ∧ (s.photos ≠ [] → handlePrint s = (s, .opened))
    ∧ (handlePrint s).1 = s := by
  refine ⟨fun h => ?_, fun h => ?_, ?_⟩
  · simp [handlePrint, h]
  · simp [handlePrint, h, List.length_eq_zero]
  · by_cases h : s.photos = [] <;> simp [handlePrint, h, List.length_eq_zero]

/-- C8 witness: both branches at concrete states. -/
theorem C8_print_empty_guard_witness :
    handlePrint ⟨"4x6", [], ∅, true, true⟩ =
      (⟨"4x6", [], ∅, true, true⟩, .aborted "Add at least one photo to print")
    ∧ handlePrint ⟨"4x6", [default], ∅, true, true⟩ =
      (⟨"4x6", [default], ∅, true, true⟩, .opened) :=
  ⟨(C8_print_empty_guard ⟨"4x6", [], ∅, true, true⟩).1 rfl,
   (C8_print_empty_guard ⟨"4x6", [default], ∅, true, true⟩).2.1 (by simp)⟩

/-- C9: for a photo whose rotation is one of 0/90/180/270 (the only
values the program produces), `getBoundingBox` is the square on
`max width height` exactly when rotate-in-place is on and the rotation is
an odd multiple of 90, and the stored `(width, height)` otherwise. -/
theorem C9_bounding_box (rip : Bool) (p : PhotoOnPage)
    (hdom : p.rotation = 0 ∨ p.rotation = 90 ∨ p.rotation = 180 ∨ p.rotation = 270) :
    getBoundingBox rip p =
      if rip ∧ (p.rotation = 90 ∨ p.rotation = 270) then
        ⟨max p.width p.height, max p.width p.height⟩
      else ⟨p.width, p.height⟩ := by
  have key : p.rotation.tmod 180 ≠ 0 ↔ (p.rotation = 90 ∨ p.rotation = 270) := by
    rcases hdom with h | h | h | h <;> rw [h] <;> decide
  unfold getBoundingBox
  exact if_congr (and_congr Iff.rfl key) rfl rfl

/-- C9 witness: a 100x50 photo at rotation 90 in rotate-in-place mode has
the 100x100 square bounding box. -/
theorem C9_bounding_box_witness :
    getBoundingBox true ⟨"p", "", 0, 0, 100, 50, 100, 50, true, 90⟩ = ⟨100, 100⟩ := by
  rw [C9_bounding_box true ⟨"p", "", 0, 0, 100, 50, 100, 50, true, 90⟩ (by decide)]
  decide

/-- C10: the clear-all button empties the photo list but leaves the
selection set unchanged (so stale selected ids can refer to no placed
photo), while both delete operations do remove the deleted ids from the
selection set. -/
theorem C10_clear_all_selection (s : EditorState) (i photoId : String) :
    ((clearAllPhotos s).photos = []
      ∧ (clearAllPhotos s).selectedPhotoIds = s.selectedPhotoIds)
    ∧ (∀ p ∈ (clearAllPhotos s).photos, p.id ≠ i)
    ∧ photoId ∉ (handleDeletePhoto photoId s).selectedPhotoIds
    ∧ i ∉ (handleDeleteSelected s).selectedPhotoIds := by
  refine ⟨⟨rfl, rfl⟩, ?_, ?_, ?_⟩
  · intro p hp
    simp [clearAllPhotos] at hp
  · exact Finset.not_mem_erase _ _
  · unfold handleDeleteSelected
    split
    · rename_i h
      rw [Finset.card_eq_zero.mp h]
      simp
    · simp

/-- C10 witness: at a concrete state with a non-empty selection, clear
all keeps the selection while delete-selected empties it. -/
theorem C10_clear_all_selection_witness :
    (clearAllPhotos ⟨"4x6", [default], {"a"}, true, true⟩).selectedPhotoIds = {"a"}
    ∧ "a" ∉ (handleDeleteSelected ⟨"4x6", [default], {"a"}, true, true⟩).selectedPhotoIds :=
  ⟨(C10_clear_all_selection ⟨"4x6", [default], {"a"}, true, true⟩ "a" "a").1.2,
   (C10_clear_all_selection ⟨"4x6", [default], {"a"}, true, true⟩ "a" "a").2.2.2⟩

/-- C4: with rotate-in-place off, four `rotatePhoto` calls restore
rotation, width, height, x and y, for any photo whose rotation lies in
[0, 360) (the data model only produces 0/90/180/270), under the
hypothesis that the photo is in bounds and that the recentered positions
of the odd steps are not moved by the clamp. -/
theorem C4_swap_rotate_four (pW pH : ℚ) (p : PhotoOnPage)
    (hr0 : 0 ≤ p.rotation) (hr1 : p.rotation < 360)
    (hx : 0 ≤ p.x) (hxw : p.x ≤ pW - p.width)
    (hy : 0 ≤ p.y) (hyh : p.y ≤ pH - p.height)
    (hx1 : 0 ≤ p.x + (p.width - p.height) / 2)
    (hx1' : p.x + (p.width - p.height) / 2 ≤ pW - p.height)
    (hy1 : 0 ≤ p.y + (p.height - p.width) / 2)
    (hy1' : p.y + (p.height - p.width) / 2 ≤ pH - p.width) :
    rotatePhotoStep false pW pH (rotatePhotoStep false pW pH
      (rotatePhotoStep false pW pH (rotatePhotoStep false pW pH p))) = p := by
  rw [rotate_swap_twice pW pH p hx hxw hy hyh hx1 hx1' hy1 hy1']
  rw [rotate_swap_twice pW pH
    { p with rotation := ((p.rotation + 90).tmod 360 + 90).tmod 360 }
    hx hxw hy hyh hx1 hx1' hy1 hy1']
  refine PhotoOnPage.ext rfl rfl rfl rfl rfl rfl rfl rfl rfl ?_
  show ((((p.rotation + 90).tmod 360 + 90).tmod 360 + 90).tmod 360 + 90).tmod 360 = p.rotation
  exact rotation_four_steps p.rotation hr0 hr1

/-- C4 witness: a concrete 100x50 photo at (100, 100) on the 4x6 page
(96 DPI) returns to itself after four swap-dimensions rotations. -/
theorem C4_swap_rotate_four_witness :
    rotatePhotoStep false 384 576 (rotatePhotoStep false 384 576
      (rotatePhotoStep false 384 576 (rotatePhotoStep false 384 576
        ⟨"p", "", 100, 100, 100, 50, 100, 50, true, 0⟩))) =
      ⟨"p", "", 100, 100, 100, 50, 100, 50, true, 0⟩ :=
  C4_swap_rotate_four 384 576 ⟨"p", "", 100, 100, 100, 50, 100, 50, true, 0⟩
    (by norm_num) (by norm_num) (by norm_num) (by norm_num) (by norm_num)
    (by norm_num) (by norm_num) (by norm_num) (by norm_num) (by norm_num)

/-- C3: a drag-move step applies the same delta, computed from the
primary (first selected, in list order) photo, to every selected photo,
clamping each against its own bounding box, and leaves unselected photos
unchanged; at a concrete state with two selected photos, one at the right
page edge, dragging right clamps only the edge photo, shearing the pair,
while the unselected photo is untouched. -/
theorem C3_group_drag :
    (∀ (rip : Bool) (pW pH : ℚ) (sel : Finset String) (newX newY : ℚ)
        (photos : List PhotoOnPage) (pp : PhotoOnPage),
      photos.find? (fun p => decide (p.id ∈ sel)) = some pp →
      handleMouseMove rip pW pH sel newX newY photos =
        photos.map (fun p =>
          if p.id ∈ sel then dragPhotoClamp rip pW pH (newX - pp.x) (newY - pp.y) p else p))
    ∧ (∀ (rip : Bool) (pW pH : ℚ) (sel : Finset String) (newX newY : ℚ)
        (photos : List PhotoOnPage) (p : PhotoOnPage),
      p ∈ photos → p.id ∉ sel → p ∈ handleMouseMove rip pW pH sel newX newY photos)
    ∧ handleMouseMove true 384 576 {"a", "b"} 294 100
        [⟨"a", "", 284, 100, 100, 50, 100, 50, true, 0⟩,
         ⟨"b", "", 50, 100, 100, 50, 100, 50, true, 0⟩,
         ⟨"c", "", 0, 0, 50, 50, 50, 50, true, 0⟩] =
        [⟨"a", "", 284, 100, 100, 50, 100, 50, true, 0⟩,
         ⟨"b", "", 60, 100, 100, 50, 100, 50, true, 0⟩,
         ⟨"c", "", 0, 0, 50, 50, 50, 50, true, 0⟩] := by
  have key : ∀ (rip : Bool) (pW pH : ℚ) (sel : Finset String) (newX newY : ℚ)
      (photos : List PhotoOnPage) (pp : PhotoOnPage),
      photos.find? (fun p => decide (p.id ∈ sel)) = some pp →
      handleMouseMove rip pW pH sel newX newY photos =
        photos.map (fun p =>
          if p.id ∈ sel then dragPhotoClamp rip pW pH (newX - pp.x) (newY - pp.y) p else p) := by
    intro rip pW pH sel newX newY photos pp hfind
    have hmem : pp.id ∈ sel := by simpa using List.find?_some hfind
    have hcard : ¬ sel.card = 0 := Finset.card_ne_zero_of_mem hmem
    unfold handleMouseMove
    rw [if_neg hcard, hfind]
  refine ⟨key, ?_, ?_⟩
  · intro rip pW pH sel newX newY photos p hp hsel
    unfold handleMouseMove
    split
    · exact hp
    · cases hfind : photos.find? (fun q => decide (q.id ∈ sel)) with
      | none => exact hp
      | some pp => exact List.mem_map.mpr ⟨p, hp, if_neg hsel⟩
  · rw [key true 384 576 {"a", "b"} 294 100 _
      ⟨"a", "", 284, 100, 100, 50, 100, 50, true, 0⟩ (by decide)]
    simp only [List.map_cons, List.map_nil]
    norm_num [dragPhotoClamp, getBoundingBox, min_def, max_def]
    decide

/-- C3 witness: the unselected photo of the concrete shear scenario is
still present after the drag step. -/
theorem C3_group_drag_witness :
    (⟨"c", "", 0, 0, 50, 50, 50, 50, true, 0⟩ : PhotoOnPage) ∈
      handleMouseMove true 384 576 {"a", "b"} 294 100
        [⟨"a", "", 284, 100, 100, 50, 100, 50, true, 0⟩,
         ⟨"b", "", 50, 100, 100, 50, 100, 50, true, 0⟩,
         ⟨"c", "", 0, 0, 50, 50, 50, 50, true, 0⟩] :=
  C3_group_drag.2.1 true 384 576 {"a", "b"} 294 100 _ _ (by decide) (by decide)

/-- C2 counterexample: the rotated-tiling bulk add of the demo file with
count 8, page width 1200 (4x6 at 300 DPI), post-rotation bounding width
100 (crop height 100), margins 55 and gaps 9 places all 8 items in the
first row (y = 49), while the claimed first-row count
⌊(1200 − 55 − 55 + 9) / (100 + 9)⌋ is 10 ≠ 8. -/
theorem C2_first_row_counterexample :
    rowCount (Demo.handleAddEightPhotos ⟨"1", "", 150, 100⟩ 8
        (Demo.pageWidthPx PAGE_SIZES_4x6) true (fun _ => "") []) 49 = 8
    ∧ (Demo.handleAddEightPhotos ⟨"1", "", 150, 100⟩ 8
        (Demo.pageWidthPx PAGE_SIZES_4x6) true (fun _ => "") []).length = 8
    ∧ ((1200 - 55 - 55 + 9) / (100 + 9) : ℕ) = 10
    ∧ (8 : ℕ) ≠ 10 := by
  refine ⟨?_, ?_, by norm_num, by norm_num⟩ <;>
    norm_num [Demo.handleAddEightPhotos, Demo.pageWidthPx, Demo.DPI, PAGE_SIZES_4x6,
      packAux, rowCount, List.filter_cons, List.filter_nil, decide_eq_true_eq,
      show ((90 : ℤ).tmod 180) = 90 from by decide]

/-- C2 amended: with count 8 the packer places all 8 items in the single
first row (no wrap occurs, as 8 is below the row capacity
⌊(1200 − 55 − 55 + 9) / (100 + 9)⌋ = 10); with count 12 the first row
holds exactly 10 items and the remaining 2 start the next row at
y + itemHeight + gapY; and one packing step wraps (x reset to marginLeft,
y advanced by itemHeight + gapY) exactly when the next item's right edge
would exceed pageWidth − marginRight. -/
theorem C2_first_row_amended :
    rowCount (Demo.handleAddEightPhotos ⟨"1", "", 150, 100⟩ 8
        (Demo.pageWidthPx PAGE_SIZES_4x6) true (fun _ => "") []) 49 = 8
    ∧ (Demo.handleAddEightPhotos ⟨"1", "", 150, 100⟩ 8
        (Demo.pageWidthPx PAGE_SIZES_4x6) true (fun _ => "") []).length = 8
    ∧ rowCount (Demo.handleAddEightPhotos ⟨"1", "", 150, 100⟩ 12
        (Demo.pageWidthPx PAGE_SIZES_4x6) true (fun _ => "") []) 49 = 10
    ∧ rowCount (Demo.handleAddEightPhotos ⟨"1", "", 150, 100⟩ 12
        (Demo.pageWidthPx PAGE_SIZES_4x6) true (fun _ => "") []) (49 + 150 + 9) = 2
    ∧ ((1200 - 55 - 55 + 9) / (100 + 9) : ℕ) = 10
    ∧ (∀ (x y : ℚ) (n i : ℕ),
        (x + 100 > 1200 - 55 →
          (packAux "" 150 100 true 90 (fun _ => "") 1200 100 150 55 55 9 9 (n + 1) i x y).headI.x
              = 55
          ∧ (packAux "" 150 100 true 90 (fun _ => "") 1200 100 150 55 55 9 9 (n + 1) i x y).headI.y
              = y + 150 + 9)
        ∧ (x + 100 ≤ 1200 - 55 →
          (packAux "" 150 100 true 90 (fun _ => "") 1200 100 150 55 55 9 9 (n + 1) i x y).headI.x
              = x
          ∧ (packAux "" 150 100 true 90 (fun _ => "") 1200 100 150 55 55 9 9 (n + 1) i x y).headI.y
              = y)) := by
  refine ⟨?_, ?_, ?_, ?_, by norm_num, ?_⟩
  · norm_num [Demo.handleAddEightPhotos, Demo.pageWidthPx, Demo.DPI, PAGE_SIZES_4x6,
      packAux, rowCount, List.filter_cons, List.filter_nil, decide_eq_true_eq,
      show ((90 : ℤ).tmod 180) = 90 from by decide]
  · norm_num [Demo.handleAddEightPhotos, Demo.pageWidthPx, Demo.DPI, PAGE_SIZES_4x6,
      packAux, rowCount, List.filter_cons, List.filter_nil, decide_eq_true_eq,
      show ((90 : ℤ).tmod 180) = 90 from by decide]
  · norm_num [Demo.handleAddEightPhotos, Demo.pageWidthPx, Demo.DPI, PAGE_SIZES_4x6,
      packAux, rowCount, List.filter_cons, List.filter_nil, decide_eq_true_eq,
      show ((90 : ℤ).tmod 180) = 90 from by decide]
  · norm_num [Demo.handleAddEightPhotos, Demo.pageWidthPx, Demo.DPI, PAGE_SIZES_4x6,
      packAux, rowCount, List.filter_cons, List.filter_nil, decide_eq_true_eq,
      show ((90 : ℤ).tmod 180) = 90 from by decide]
  · intro x y n i
    constructor <;> intro h
    · have hc : x + 100 + 55 > 1200 := by linarith
      simp only [packAux, if_pos hc, List.headI]
      exact ⟨by trivial, by trivial⟩
    · have hc : ¬ (x + 100 + 55 > 1200) := by linarith
      simp only [packAux, if_neg hc, List.headI]
      exact ⟨by trivial, by trivial⟩

/-- C2 witness: one packing step at x = 1100 wraps to the left margin,
and one at x = 55 stays on the current row. -/
theorem C2_first_row_amended_witness :
    (packAux "" 150 100 true 90 (fun _ => "") 1200 100 150 55 55 9 9 1 0 1100 49).headI.x = 55
    ∧ (packAux "" 150 100 true 90 (fun _ => "") 1200 100 150 55 55 9 9 1 0 55 49).headI.y = 49 :=
  ⟨((C2_first_row_amended.2.2.2.2.2 1100 49 0 0).1 (by norm_num)).1,
   ((C2_first_row_amended.2.2.2.2.2 55 49 0 0).2 (by norm_num)).2⟩

/-- C1 counterexample: on the 4x6 page (96 DPI) a 100x200 photo at
x = 284 (right edge) satisfies the bounds invariant, yet one
rotate-in-place call, which enlarges the bounding box to the 200x200
square without re-clamping, leaves it violating
`x + bbox.width ≤ pageWidthPx`. -/
theorem C1_bounds_counterexample :
    inBounds true (Editor.pageWidthPx PAGE_SIZES_4x6) (Editor.pageHeightPx PAGE_SIZES_4x6)
      ⟨"p", "", 284, 0, 100, 200, 100, 200, true, 0⟩
    ∧ rotatePhoto true (Editor.pageWidthPx PAGE_SIZES_4x6) (Editor.pageHeightPx PAGE_SIZES_4x6)
        "p" [⟨"p", "", 284, 0, 100, 200, 100, 200, true, 0⟩] =
      [⟨"p", "", 284, 0, 100, 200, 100, 200, true, 90⟩]
    ∧ ¬ inBounds true (Editor.pageWidthPx PAGE_SIZES_4x6) (Editor.pageHeightPx PAGE_SIZES_4x6)
        ⟨"p", "", 284, 0, 100, 200, 100, 200, true, 90⟩ := by
  refine ⟨?_, ?_, ?_⟩
  · norm_num [inBounds, getBoundingBox, Editor.pageWidthPx, Editor.pageHeightPx, Editor.DPI,
      PAGE_SIZES_4x6, show ((0 : ℤ).tmod 180) = 0 from by decide]
  · norm_num [rotatePhoto, rotatePhotoStep,
      show ((90 : ℤ).tmod 360) = 90 from by decide]
  · norm_num [inBounds, getBoundingBox, Editor.pageWidthPx, Editor.pageHeightPx, Editor.DPI,
      PAGE_SIZES_4x6, show ((90 : ℤ).tmod 180) = 90 from by decide]

/-- C1 amended: for every page size and layout state in which every
photo's bounding box fits the page and every photo is in bounds, a drag
step and an arrow-key nudge keep every photo in bounds, and a
swap-dimensions rotate keeps every photo in bounds provided the swapped
dimensions also fit; the excluded case is rotate-in-place, which can
enlarge the bounding box past the page edge (see the counterexample). -/
theorem C1_bounds_amended (rip : Bool) (pW pH : ℚ) (sel : Finset String)
    (photos : List PhotoOnPage) (newX newY : ℚ) (shiftKey : Bool) (key : Key) (photoId : String)
    (hfit : ∀ p ∈ photos, bboxFits rip pW pH p)
    (hin : ∀ p ∈ photos, inBounds rip pW pH p) :
    (∀ q ∈ handleMouseMove rip pW pH sel newX newY photos, inBounds rip pW pH q)
    ∧ (∀ q ∈ handleKeyDown rip pW pH sel shiftKey key photos, inBounds rip pW pH q)
    ∧ (rip = false →
        (∀ p ∈ photos, p.height ≤ pW ∧ p.width ≤ pH) →
        ∀ q ∈ rotatePhoto false pW pH photoId photos, inBounds false pW pH q) := by
  refine ⟨?_, ?_, ?_⟩
  · intro q hq
    unfold handleMouseMove at hq
    split at hq
    · exact hin q hq
    · cases hfind : photos.find? (fun p => decide (p.id ∈ sel)) with
      | none => rw [hfind] at hq; exact hin q hq
      | some pp =>
        rw [hfind] at hq
        obtain ⟨p, hp, rfl⟩ := List.mem_map.mp hq
        by_cases hs : p.id ∈ sel
        · rw [if_pos hs]
          exact dragPhotoClamp_inBounds rip pW pH _ _ p (hfit p hp)
        · rw [if_neg hs]
          exact hin p hp
  · intro q hq
    unfold handleKeyDown at hq
    split at hq
    · exact hin q hq
    · obtain ⟨p, hp, rfl⟩ := List.mem_map.mp hq
      by_cases hs : p.id ∈ sel
      · rw [if_pos hs]
        refine nudgePhoto_inBounds rip pW pH key _ p ?_ (hfit p hp) (hin p hp)
        split_ifs <;> norm_num
      · rw [if_neg hs]
        exact hin p hp
  · rintro rfl hdims q hq
    unfold rotatePhoto at hq
    obtain ⟨p, hp, rfl⟩ := List.mem_map.mp hq
    by_cases hs : p.id = photoId
    · rw [if_pos hs]
      exact rotatePhotoStep_swap_inBounds pW pH p (hdims p hp).1 (hdims p hp).2
    · rw [if_neg hs]
      exact hin p hp

/-- C1 amended witness: a concrete drag of a selected 50x50 photo on the
4x6 page lands in bounds. -/
theorem C1_bounds_amended_witness :
    inBounds true 384 576 (dragPhotoClamp true 384 576 (300 - 10) (300 - 10)
      ⟨"a", "", 10, 10, 50, 50, 50, 50, true, 0⟩) := by
  refine (C1_bounds_amended true 384 576 {"a"}
    [⟨"a", "", 10, 10, 50, 50, 50, 50, true, 0⟩] 300 300 false Key.arrowLeft "a"
    ?_ ?_).1 _ ?_
  · intro p hp
    simp only [List.mem_singleton] at hp
    subst hp
    norm_num [bboxFits, getBoundingBox, show ((0 : ℤ).tmod 180) = 0 from by decide]
  · intro p hp
    simp only [List.mem_singleton] at hp
    subst hp
    norm_num [inBounds, getBoundingBox, show ((0 : ℤ).tmod 180) = 0 from by decide]
  · simp [handleMouseMove, List.find?]
